import Mathlib

/-
  Verification development for the Render3D repository (src/CLASE_05 CODE/src/main.ts).

  The file shallowly embeds the state and the pure logic of main.ts:
  the per-cube state record, the keydown spawner, the held-key set, the
  global composition-order toggle, the per-frame rotation integration,
  the dt clamp, the texture-load fallback and the model-matrix builder.
  JavaScript numbers are modelled as real numbers (rationals where a
  decidable computation is wanted); GPU handles (buffers, bind groups,
  texture views) are opaque natural-number tokens.
-/

open Real

/-- Composition order is a plain string at runtime in JavaScript
(`type ModelOrder = "TRS" | "RTS" | "SRT"`); the switch in
`buildModelMatrix` has a default branch, so we keep the string type. -/
abbrev ModelOrder := String

/-- Per-cube state, from `interface CubeState` in main.ts (lines 237-252).
`uniformBuffer`, `bindGroup` and `textureView` are optional GPU handles,
modelled as opaque natural-number tokens. -/
structure CubeState where
  tx : ℝ
  ty : ℝ
  tz : ℝ
  rx : ℝ
  ry : ℝ
  rz : ℝ
  s : ℝ
  order : ModelOrder
  uniformBuffer : Option ℕ := none
  bindGroup : Option ℕ := none
  textureView : Option ℕ := none
  rotSpeedX : ℝ
  rotSpeedY : ℝ
  rotSpeedZ : ℝ

/-- The keys excluded from spawning, from the `excludeKeys` array in the
keydown handler (main.ts lines 281-283). -/
def excludeKeys : List String :=
  ["w", "W", "a", "A", "s", "S", "d", "D",
   "ArrowUp", "ArrowDown", "ArrowLeft", "ArrowRight",
   "q", "Q", "e", "E"]

/-- `keys.add(k)` on a JavaScript Set: insert preserving insertion order,
no duplicates. -/
def addKey (k : String) (keys : List String) : List String :=
  if keys.contains k then keys else keys ++ [k]

/-- The random draws consumed by one keydown spawn, each produced by
`Math.random()` (so each lies in `[0,1)` when well formed). -/
structure SpawnRandoms where
  rTex : ℝ
  rTx : ℝ
  rTy : ℝ
  rTz : ℝ
  rRx : ℝ
  rRy : ℝ
  rRz : ℝ
  rS : ℝ
  a1 : ℝ
  a2 : ℝ
  a3 : ℝ

/-- The `newCube` object literal built by the keydown handler
(main.ts lines 294-314): random translation `(r-0.5)*50`, random initial
angles `r*PI*2`, scale `r*1.5+0.5`, order `"TRS"`, a random texture view
`textures[floor(r*3)]`, and rotation speeds `sin/cos(randomAngle)*2`. -/
noncomputable def makeCube (rnd : SpawnRandoms) : CubeState :=
  { tx := (rnd.rTx - 0.5) * 50
    ty := (rnd.rTy - 0.5) * 50
    tz := (rnd.rTz - 0.5) * 50
    rx := rnd.rRx * Real.pi * 2
    ry := rnd.rRy * Real.pi * 2
    rz := rnd.rRz * Real.pi * 2
    s := rnd.rS * 1.5 + 0.5
    order := "TRS"
    uniformBuffer := none
    bindGroup := none
    textureView := some (Int.toNat ⌊rnd.rTex * 3⌋)
    rotSpeedX := Real.sin (rnd.a1 * Real.pi * 2) * 2
    rotSpeedY := Real.cos (rnd.a2 * Real.pi * 2) * 2
    rotSpeedZ := Real.sin (rnd.a3 * Real.pi * 2) * 2 }

/-- `createCubeBindGroup` (main.ts lines 257-275): allocates a uniform
buffer and a bind group for the cube and stores both handles on it.  The
device allocations are external; the two fresh handles are modelled as
the tokens `h` and `h+1`. -/
def createCubeBindGroup (h : ℕ) (cube : CubeState) : CubeState :=
  { cube with uniformBuffer := some h, bindGroup := some (h + 1) }

/-- The module-level mutable state of main.ts that the claims touch:
the held-key set `keys`, the primary cube `modelState`, the spawned-cube
list `cubes`, and a fresh-handle counter for GPU allocations. -/
structure World where
  keys : List String
  modelState : CubeState
  cubes : List CubeState
  nextHandle : ℕ

/-- The keydown handler (main.ts lines 278-320): always adds the key to
the held set; returns early if the key is in `excludeKeys`; otherwise
builds a random cube, gives it a uniform buffer and bind group via
`createCubeBindGroup`, and pushes it onto `cubes`. -/
noncomputable def keydown (key : String) (rnd : SpawnRandoms) (w : World) : World :=
  let keys := addKey key w.keys
  if excludeKeys.contains key then { w with keys := keys }
  else
    let newCube := createCubeBindGroup w.nextHandle (makeCube rnd)
    { w with keys := keys
             cubes := w.cubes ++ [newCube]
             nextHandle := w.nextHandle + 2 }

/-- The keyup handler (main.ts line 322): removes the key from the held set. -/
def keyup (key : String) (w : World) : World :=
  { w with keys := w.keys.erase key }

/-- `updateModelState` (main.ts lines 339-344) as a function of the held
keys and the current order of the primary cube: three successive ifs,
keys `"1"`, `"2"`, `"3"`, last matching check wins. -/
def updateModelState (keys : List String) (order : ModelOrder) : ModelOrder :=
  let o1 := if keys.contains "1" then "TRS" else order
  let o2 := if keys.contains "2" then "RTS" else o1
  if keys.contains "3" then "SRT" else o2

/-- The rotation integration done each frame for the primary cube
(main.ts lines 401-403) and for each spawned cube (lines 414-416):
`rx += rotSpeedX * dt` and likewise for y and z. -/
def integrateRotation (dt : ℝ) (c : CubeState) : CubeState :=
  { c with rx := c.rx + c.rotSpeedX * dt
           ry := c.ry + c.rotSpeedY * dt
           rz := c.rz + c.rotSpeedZ * dt }

/-- The state effect of one `frame(now)` call (main.ts lines 366-431) on
the model data: apply the order toggle to `modelState`, integrate the
primary rotation, integrate every spawned cube's rotation.  Matrix
building, uniform uploads and draw calls read this state but do not
change it. -/
def frameStep (keys : List String) (dt : ℝ) (st : World) : World :=
  let primary := { st.modelState with order := updateModelState keys st.modelState.order }
  { st with modelState := integrateRotation dt primary
            cubes := st.cubes.map (integrateRotation dt) }

/-- `const dt = Math.min(0.033, (now - lastTime) / 1000)` (main.ts
line 367), over rationals so the clamp is decidable.  Timestamps are in
milliseconds. -/
def computeDt (now lastTime : ℚ) : ℚ :=
  min 0.033 ((now - lastTime) / 1000)

/-- An external event driving the module state: a keydown (with the
`Math.random()` draws it consumes), a keyup, or one animation frame. -/
inductive Event where
  | keydown (key : String) (rnd : SpawnRandoms)
  | keyup (key : String)
  | frame (dt : ℝ)

/-- One event applied to the world. -/
noncomputable def stepEvent : Event → World → World
  | .keydown key rnd, w => keydown key rnd w
  | .keyup key, w => keyup key w
  | .frame dt, w => frameStep w.keys dt w

/-- A sequence of events applied left to right. -/
noncomputable def runEvents (evs : List Event) (w : World) : World :=
  evs.foldl (fun w e => stepEvent e w) w

/-- The initial `modelState` (main.ts lines 324-337), parametrised by the
three random initial angles. -/
noncomputable def initialModelState (a1 a2 a3 : ℝ) : CubeState :=
  { tx := 0, ty := 0, tz := 0
    rx := 0, ry := 0, rz := 0
    s := 1
    order := "TRS"
    rotSpeedX := Real.sin a1 * 2
    rotSpeedY := Real.cos a2 * 2
    rotSpeedZ := Real.sin a3 * 2 }

/-- The module state right after startup: no held keys, no spawned
cubes. -/
noncomputable def initWorld (a1 a2 a3 : ℝ) : World :=
  { keys := []
    modelState := initialModelState a1 a2 a3
    cubes := []
    nextHandle := 0 }

/-- A decoded texture: dimensions plus an RGBA pixel function. -/
structure Texture where
  width : ℕ
  height : ℕ
  pixel : ℕ → ℕ → ℕ × ℕ × ℕ × ℕ

/-- One pixel of the checkerboard fallback built in the catch branch of
`loadTextureOrCheckerboard` (main.ts lines 182-192):
`checker = ((x >> 4) & 1) ^ ((y >> 4) & 1)`, colour 230 when truthy and
35 otherwise, alpha 255. -/
def checkerPixel (x y : ℕ) : ℕ × ℕ × ℕ × ℕ :=
  let checker := ((x >>> 4) &&& 1) ^^^ ((y >>> 4) &&& 1)
  let c := if checker ≠ 0 then 230 else 35
  (c, c, c, 255)

/-- The 128 by 128 checkerboard fallback texture. -/
def checkerboardTexture : Texture :=
  { width := 128, height := 128, pixel := checkerPixel }

/-- `loadTextureOrCheckerboard` (main.ts lines 150-210): the fetch,
decode and upload are external, so the function is modelled on the
outcome of that external attempt.  A successful attempt yields the
decoded texture; any failure is caught by the catch branch, which
returns the checkerboard fallback — the function is total and never
propagates the error. -/
def loadTextureOrCheckerboard (fetched : Except String Texture) : Texture :=
  match fetched with
  | .ok tex => tex
  | .error _ => checkerboardTexture

/-- Modelled from the spec: the 4x4 matrix type of the `mat4` library
(src/math.ts is absent from the repository snapshot; only main.ts is
present).  Spec section 4.1: 16 floating-point values forming a 4x4
transform. -/
abbrev Mat4 := Matrix (Fin 4) (Fin 4) ℝ

namespace mat4

/-- Modelled from the spec: `mat4.translation(x,y,z)` (math.ts absent),
the standard affine translation matrix. -/
noncomputable def translation (x y z : ℝ) : Mat4 :=
  !![1, 0, 0, x;
     0, 1, 0, y;
     0, 0, 1, z;
     0, 0, 0, 1]

/-- Modelled from the spec: `mat4.scaling(sx,sy,sz)` (math.ts absent),
the standard diagonal scaling matrix. -/
noncomputable def scaling (sx sy sz : ℝ) : Mat4 :=
  !![sx, 0, 0, 0;
     0, sy, 0, 0;
     0, 0, sz, 0;
     0, 0, 0, 1]

/-- Modelled from the spec: `mat4.rotationX(t)` (math.ts absent), the
standard right-handed rotation about the X axis. -/
noncomputable def rotationX (t : ℝ) : Mat4 :=
  !![1, 0, 0, 0;
     0, Real.cos t, -(Real.sin t), 0;
     0, Real.sin t, Real.cos t, 0;
     0, 0, 0, 1]

/-- Modelled from the spec: `mat4.rotationY(t)` (math.ts absent), the
standard right-handed rotation about the Y axis. -/
noncomputable def rotationY (t : ℝ) : Mat4 :=
  !![Real.cos t, 0, Real.sin t, 0;
     0, 1, 0, 0;
     -(Real.sin t), 0, Real.cos t, 0;
     0, 0, 0, 1]

/-- Modelled from the spec: `mat4.rotationZ(t)` (math.ts absent), the
standard right-handed rotation about the Z axis. -/
noncomputable def rotationZ (t : ℝ) : Mat4 :=
  !![Real.cos t, -(Real.sin t), 0, 0;
     Real.sin t, Real.cos t, 0, 0;
     0, 0, 1, 0;
     0, 0, 0, 1]

/-- Modelled from the spec: `mat4.multiply(A,B) = A * B` (math.ts absent),
spec section 4.1: apply B first, then A. -/
noncomputable def multiply (A B : Mat4) : Mat4 := A * B

end mat4

/-- `buildModelMatrix` (main.ts lines 346-362): T, S, the three axis
rotations, `R = Rz * (Ry * Rx)`, then a switch on `cube.order` with a
default branch falling back to the TRS form. -/
noncomputable def buildModelMatrix (cube : CubeState) : Mat4 :=
  let T := mat4.translation cube.tx cube.ty cube.tz
  let S := mat4.scaling cube.s cube.s cube.s
  let Rx := mat4.rotationX cube.rx
  let Ry := mat4.rotationY cube.ry
  let Rz := mat4.rotationZ cube.rz
  let R := mat4.multiply Rz (mat4.multiply Ry Rx)
  match cube.order with
  | "TRS" => mat4.multiply T (mat4.multiply R S)
  | "RTS" => mat4.multiply R (mat4.multiply T S)
  | "SRT" => mat4.multiply S (mat4.multiply R T)
  | _ => mat4.multiply T (mat4.multiply R S)

/-- The fields of a cube other than the three rotation angles, used to
state which fields a frame leaves unchanged. -/
def staticFields (c : CubeState) :
    ℝ × ℝ × ℝ × ℝ × ModelOrder × ℝ × ℝ × ℝ × Option ℕ × Option ℕ × Option ℕ :=
  (c.tx, c.ty, c.tz, c.s, c.order, c.rotSpeedX, c.rotSpeedY, c.rotSpeedZ,
   c.uniformBuffer, c.bindGroup, c.textureView)

/-- A concrete, well-formed bundle of random draws (every draw 1/2),
used to instantiate spawn scenarios. -/
noncomputable def sampleRandoms : SpawnRandoms :=
  { rTex := 1/2, rTx := 1/2, rTy := 1/2, rTz := 1/2
    rRx := 1/2, rRy := 1/2, rRz := 1/2, rS := 1/2
    a1 := 1/2, a2 := 1/2, a3 := 1/2 }

/-- The guard used by the frame loop before drawing a spawned cube
(main.ts line 420): `if (cube.uniformBuffer && cube.bindGroup)`. -/
def drawReady (c : CubeState) : Bool :=
  c.uniformBuffer.isSome && c.bindGroup.isSome

/-- C6: a failed texture load is absorbed locally and replaced by the
deterministic 128 by 128 RGBA checkerboard whose pixel (x,y) is
(230,230,230,255) when ((x >> 4) and 1) xor ((y >> 4) and 1) is nonzero
and (35,35,35,255) otherwise; pixels (0,0) and (16,16) are dark, (16,0)
and (0,16) are light. -/
theorem texture_fallback_checkerboard (e : String) :
    loadTextureOrCheckerboard (Except.error e) = checkerboardTexture ∧
    (loadTextureOrCheckerboard (Except.error e)).width = 128 ∧
    (loadTextureOrCheckerboard (Except.error e)).height = 128 ∧
    (∀ x y : ℕ, (loadTextureOrCheckerboard (Except.error e)).pixel x y =
      if ((x >>> 4) &&& 1) ^^^ ((y >>> 4) &&& 1) ≠ 0 then (230, 230, 230, 255)
      else (35, 35, 35, 255)) ∧
    (loadTextureOrCheckerboard (Except.error e)).pixel 0 0 = (35, 35, 35, 255) ∧
    (loadTextureOrCheckerboard (Except.error e)).pixel 16 0 = (230, 230, 230, 255) ∧
    (loadTextureOrCheckerboard (Except.error e)).pixel 0 16 = (230, 230, 230, 255) ∧
    (loadTextureOrCheckerboard (Except.error e)).pixel 16 16 = (35, 35, 35, 255) := by
  refine ⟨rfl, rfl, rfl, ?_, rfl, rfl, rfl, rfl⟩
  intro x y
  simp only [loadTextureOrCheckerboard, checkerboardTexture, checkerPixel]
  by_cases h : ((x >>> 4) &&& 1) ^^^ ((y >>> 4) &&& 1) ≠ 0
  · simp only [if_pos h]
  · simp only [if_neg h]

/-- C3 counterexample: with consecutive timestamps 0 ms and 50 ms the
code computes dt = 0.033, which is not the claimed 1/30. -/
theorem dt_clamp_not_one_thirtieth :
    computeDt 50 0 = 0.033 ∧ computeDt 50 0 ≠ 1 / 30 ∧ (0.033 : ℚ) ≠ 1 / 30 := by
  refine ⟨?_, ?_, ?_⟩ <;> norm_num [computeDt, min_def]

/-- C3 amended: the clamp ceiling is the literal 0.033 (close to but not
equal to 1/30): dt = min(0.033, elapsed seconds), so dt never exceeds
0.033, equals the elapsed time when that is at most 0.033, equals 0.033
otherwise, and in particular equals 0.033 (not 0.05) for timestamps
0 ms and 50 ms. -/
theorem dt_clamp_point033 (now lastTime : ℚ) :
    computeDt now lastTime ≤ 0.033 ∧
    ((now - lastTime) / 1000 ≤ 0.033 → computeDt now lastTime = (now - lastTime) / 1000) ∧
    (0.033 ≤ (now - lastTime) / 1000 → computeDt now lastTime = 0.033) ∧
    computeDt 50 0 = 0.033 := by
  unfold computeDt
  exact ⟨min_le_left _ _, fun h => min_eq_right h, fun h => min_eq_left h,
    by norm_num [min_def]⟩

/-- C3 witness: the amended clamp statement instantiated at timestamps
0 ms and 50 ms. -/
theorem dt_clamp_point033_witness : computeDt 50 0 = 0.033 :=
  (dt_clamp_point033 50 0).2.2.1 (by norm_num)

/-- C4 counterexample: the order-toggle key "1" is not in `excludeKeys`,
so pressing it spawns a cube, increasing the sequence length. -/
theorem toggle_key_spawns :
    (keydown "1" sampleRandoms (initWorld 0 0 0)).cubes.length =
      (initWorld 0 0 0).cubes.length + 1 ∧
    (keydown "1" sampleRandoms (initWorld 0 0 0)).cubes.length ≠
      (initWorld 0 0 0).cubes.length := by
  constructor
  · simp [keydown, initWorld, excludeKeys, addKey]
  · simp [keydown, initWorld, excludeKeys, addKey]

/-- C4 amended: a key-down spawns a new object exactly when the key is
outside the movement-key exclude list (w/a/s/d, arrows, q/e in both
cases); the order-toggle keys "1", "2", "3" are not excluded, so they do
spawn. -/
theorem keydown_spawn_iff_not_excluded (key : String) (rnd : SpawnRandoms) (w : World) :
    (keydown key rnd w).cubes.length =
      (if excludeKeys.contains key then w.cubes.length else w.cubes.length + 1) := by
  unfold keydown
  by_cases h : key ∈ excludeKeys <;> simp [h]

/-- C8: if key "2" is held (and "3" is not) the global order becomes RTS
for that frame, stays RTS over any run of subsequent frames in which no
other toggle key ("1" or "3") is held, and holding "1" and "2" together
also yields RTS because the checks run in order 1, 2, 3 with the last
matching check winning. -/
theorem toggle_two_sets_RTS (order : ModelOrder) (keys : List String)
    (frames : List (List String)) (dt : ℝ) (st : World)
    (h2 : keys.contains "2" = true) (h3 : keys.contains "3" = false)
    (hrest : ∀ ks ∈ frames, ks.contains "1" = false ∧ ks.contains "3" = false) :
    updateModelState keys order = "RTS" ∧
    (frameStep keys dt st).modelState.order = "RTS" ∧
    List.foldl (fun o ks => updateModelState ks o) (updateModelState keys order) frames =
      "RTS" ∧
    updateModelState ["1", "2"] order = "RTS" := by
  have h2' : ("2" : String) ∈ keys := by simpa using h2
  have h3' : ¬ ("3" : String) ∈ keys := by simpa using h3
  have hbase : ∀ o : ModelOrder, updateModelState keys o = "RTS" := by
    intro o; unfold updateModelState; simp [h2', h3']
  have hkeep : ∀ fs : List (List String),
      (∀ ks ∈ fs, ks.contains "1" = false ∧ ks.contains "3" = false) →
      List.foldl (fun o ks => updateModelState ks o) "RTS" fs = "RTS" := by
    intro fs
    induction fs with
    | nil => intro _; rfl
    | cons ks rest ih =>
      intro hall
      have hks := hall ks (List.mem_cons_self _ _)
      have h1' : ¬ ("1" : String) ∈ ks := by simpa using hks.1
      have h3k : ¬ ("3" : String) ∈ ks := by simpa using hks.2
      have hone : updateModelState ks "RTS" = "RTS" := by
        unfold updateModelState
        by_cases hc2 : ("2" : String) ∈ ks <;> simp [h1', h3k, hc2]
      simp only [List.foldl_cons, hone]
      exact ih fun k hk => hall k (List.mem_cons_of_mem _ hk)
  refine ⟨hbase order, ?_, ?_, ?_⟩
  · show (integrateRotation dt
      { st.modelState with order := updateModelState keys st.modelState.order }).order = "RTS"
    simp [integrateRotation, hbase]
  · rw [hbase order]; exact hkeep frames hrest
  · unfold updateModelState; simp

/-- C8 witness: holding only "2" turns the order to RTS. -/
theorem toggle_two_sets_RTS_witness : updateModelState ["2"] "TRS" = "RTS" :=
  (toggle_two_sets_RTS "TRS" ["2"] [["2"], []] 0 (initWorld 0 0 0)
    (by decide) (by decide) (by decide)).1

/-- C2: buildModelMatrix forms T, S and the combined rotation
R = Rz * (Ry * Rx) (X applied first, then Y, then Z under the
column-vector convention) and returns T(RS) for order "TRS", R(TS) for
"RTS", S(RT) for "SRT", and the TRS form for any other order value. -/
theorem buildModelMatrix_forms (cube : CubeState) :
    buildModelMatrix cube =
      (let T := mat4.translation cube.tx cube.ty cube.tz
       let S := mat4.scaling cube.s cube.s cube.s
       let R := mat4.multiply (mat4.rotationZ cube.rz)
                  (mat4.multiply (mat4.rotationY cube.ry) (mat4.rotationX cube.rx))
       if cube.order = "TRS" then mat4.multiply T (mat4.multiply R S)
       else if cube.order = "RTS" then mat4.multiply R (mat4.multiply T S)
       else if cube.order = "SRT" then mat4.multiply S (mat4.multiply R T)
       else mat4.multiply T (mat4.multiply R S)) := by
  unfold buildModelMatrix
  by_cases h1 : cube.order = "TRS"
  · simp [h1]
  · by_cases h2 : cube.order = "RTS"
    · simp [h1, h2]
    · by_cases h3 : cube.order = "SRT"
      · simp [h1, h2, h3]
      · simp [h1, h2, h3]

/-- C5: a key-down for a non-excluded key appends exactly one cube,
whose uniform scale lies in [0.5, 2), whose translation components lie
in [-25, 25], whose initial rotation angles lie in [0, 2*pi), whose
per-axis rotation velocities (sine/cosine of random phase angles, times
two) lie in [-2, 2], and whose order is "TRS"; a key-down for the
reserved key "w" leaves the cube sequence length unchanged. -/
theorem spawn_randomized_cube (key : String) (rnd : SpawnRandoms) (w : World)
    (hkey : excludeKeys.contains key = false)
    (hTx : 0 ≤ rnd.rTx ∧ rnd.rTx < 1) (hTy : 0 ≤ rnd.rTy ∧ rnd.rTy < 1)
    (hTz : 0 ≤ rnd.rTz ∧ rnd.rTz < 1)
    (hRx : 0 ≤ rnd.rRx ∧ rnd.rRx < 1) (hRy : 0 ≤ rnd.rRy ∧ rnd.rRy < 1)
    (hRz : 0 ≤ rnd.rRz ∧ rnd.rRz < 1)
    (hS : 0 ≤ rnd.rS ∧ rnd.rS < 1) :
    (keydown key rnd w).cubes.length = w.cubes.length + 1 ∧
    (keydown key rnd w).cubes =
      w.cubes ++ [createCubeBindGroup w.nextHandle (makeCube rnd)] ∧
    (0.5 ≤ (makeCube rnd).s ∧ (makeCube rnd).s < 2) ∧
    (-25 ≤ (makeCube rnd).tx ∧ (makeCube rnd).tx ≤ 25) ∧
    (-25 ≤ (makeCube rnd).ty ∧ (makeCube rnd).ty ≤ 25) ∧
    (-25 ≤ (makeCube rnd).tz ∧ (makeCube rnd).tz ≤ 25) ∧
    (0 ≤ (makeCube rnd).rx ∧ (makeCube rnd).rx < 2 * Real.pi) ∧
    (0 ≤ (makeCube rnd).ry ∧ (makeCube rnd).ry < 2 * Real.pi) ∧
    (0 ≤ (makeCube rnd).rz ∧ (makeCube rnd).rz < 2 * Real.pi) ∧
    (-2 ≤ (makeCube rnd).rotSpeedX ∧ (makeCube rnd).rotSpeedX ≤ 2) ∧
    (-2 ≤ (makeCube rnd).rotSpeedY ∧ (makeCube rnd).rotSpeedY ≤ 2) ∧
    (-2 ≤ (makeCube rnd).rotSpeedZ ∧ (makeCube rnd).rotSpeedZ ≤ 2) ∧
    (makeCube rnd).order = "TRS" ∧
    (∀ (w2 : World) (rnd2 : SpawnRandoms),
      (keydown "w" rnd2 w2).cubes.length = w2.cubes.length) := by
  have hkey' : ¬ key ∈ excludeKeys := by simpa using hkey
  have hpi := Real.pi_pos
  have hs : (makeCube rnd).s = rnd.rS * 1.5 + 0.5 := rfl
  have htx : (makeCube rnd).tx = (rnd.rTx - 0.5) * 50 := rfl
  have hty : (makeCube rnd).ty = (rnd.rTy - 0.5) * 50 := rfl
  have htz : (makeCube rnd).tz = (rnd.rTz - 0.5) * 50 := rfl
  have hrx : (makeCube rnd).rx = rnd.rRx * Real.pi * 2 := rfl
  have hry : (makeCube rnd).ry = rnd.rRy * Real.pi * 2 := rfl
  have hrz : (makeCube rnd).rz = rnd.rRz * Real.pi * 2 := rfl
  have hvx : (makeCube rnd).rotSpeedX = Real.sin (rnd.a1 * Real.pi * 2) * 2 := rfl
  have hvy : (makeCube rnd).rotSpeedY = Real.cos (rnd.a2 * Real.pi * 2) * 2 := rfl
  have hvz : (makeCube rnd).rotSpeedZ = Real.sin (rnd.a3 * Real.pi * 2) * 2 := rfl
  have hsx1 := Real.neg_one_le_sin (rnd.a1 * Real.pi * 2)
  have hsx2 := Real.sin_le_one (rnd.a1 * Real.pi * 2)
  have hcy1 := Real.neg_one_le_cos (rnd.a2 * Real.pi * 2)
  have hcy2 := Real.cos_le_one (rnd.a2 * Real.pi * 2)
  have hsz1 := Real.neg_one_le_sin (rnd.a3 * Real.pi * 2)
  have hsz2 := Real.sin_le_one (rnd.a3 * Real.pi * 2)
  refine ⟨?_, ?_, ?_, ?_, ?_, ?_, ?_, ?_, ?_, ?_, ?_, ?_, rfl, ?_⟩
  · simp [keydown, hkey']
  · simp [keydown, hkey']
  · rw [hs]; constructor <;> linarith [hS.1, hS.2]
  · rw [htx]; constructor <;> linarith [hTx.1, hTx.2]
  · rw [hty]; constructor <;> linarith [hTy.1, hTy.2]
  · rw [htz]; constructor <;> linarith [hTz.1, hTz.2]
  · rw [hrx]
    exact ⟨mul_nonneg (mul_nonneg hRx.1 hpi.le) (by norm_num),
      by nlinarith [hRx.1, hRx.2, hpi]⟩
  · rw [hry]
    exact ⟨mul_nonneg (mul_nonneg hRy.1 hpi.le) (by norm_num),
      by nlinarith [hRy.1, hRy.2, hpi]⟩
  · rw [hrz]
    exact ⟨mul_nonneg (mul_nonneg hRz.1 hpi.le) (by norm_num),
      by nlinarith [hRz.1, hRz.2, hpi]⟩
  · rw [hvx]; constructor <;> linarith [hsx1, hsx2]
  · rw [hvy]; constructor <;> linarith [hcy1, hcy2]
  · rw [hvz]; constructor <;> linarith [hsz1, hsz2]
  · intro w2 rnd2
    simp [keydown, excludeKeys]

/-- C5 witness: the spawn scenario for key "x" with every random draw
equal to one half. -/
theorem spawn_randomized_cube_witness :
    (keydown "x" sampleRandoms (initWorld 0 0 0)).cubes.length =
      (initWorld 0 0 0).cubes.length + 1 := by
  have H := spawn_randomized_cube "x" sampleRandoms (initWorld 0 0 0)
    (by decide)
    (by norm_num [sampleRandoms]) (by norm_num [sampleRandoms])
    (by norm_num [sampleRandoms]) (by norm_num [sampleRandoms])
    (by norm_num [sampleRandoms]) (by norm_num [sampleRandoms])
    (by norm_num [sampleRandoms])
  exact H.1

/-- C7: every frame advances each rotation angle of the primary cube and
of every spawned cube by its rotation speed times dt, unconditionally. -/
theorem frame_advances_rotations (keys : List String) (dt : ℝ) (st : World) (i : ℕ) :
    (frameStep keys dt st).modelState.rx =
      st.modelState.rx + st.modelState.rotSpeedX * dt ∧
    (frameStep keys dt st).modelState.ry =
      st.modelState.ry + st.modelState.rotSpeedY * dt ∧
    (frameStep keys dt st).modelState.rz =
      st.modelState.rz + st.modelState.rotSpeedZ * dt ∧
    ((frameStep keys dt st).cubes[i]?).map CubeState.rx =
      (st.cubes[i]?).map (fun c => c.rx + c.rotSpeedX * dt) ∧
    ((frameStep keys dt st).cubes[i]?).map CubeState.ry =
      (st.cubes[i]?).map (fun c => c.ry + c.rotSpeedY * dt) ∧
    ((frameStep keys dt st).cubes[i]?).map CubeState.rz =
      (st.cubes[i]?).map (fun c => c.rz + c.rotSpeedZ * dt) := by
  refine ⟨rfl, rfl, rfl, ?_, ?_, ?_⟩ <;>
  · simp only [frameStep, List.getElem?_map]
    cases st.cubes[i]? <;> simp [integrateRotation]

/-- C10: one frame step leaves every non-rotation field of every spawned
cube unchanged and neither adds nor removes cubes. -/
theorem frame_preserves_static_fields (keys : List String) (dt : ℝ) (st : World) (i : ℕ) :
    ((frameStep keys dt st).cubes[i]?).map staticFields =
      (st.cubes[i]?).map staticFields ∧
    (frameStep keys dt st).cubes.length = st.cubes.length := by
  constructor
  · simp only [frameStep, List.getElem?_map]
    cases st.cubes[i]? <;> simp [integrateRotation, staticFields]
  · simp [frameStep]

/-- Helper for the draw-readiness invariant: every event preserves the
fact that all spawned cubes carry a uniform buffer and a bind group. -/
theorem stepEvent_preserves_drawReady (e : Event) (w : World)
    (h : w.cubes.all drawReady = true) : (stepEvent e w).cubes.all drawReady = true := by
  cases e with
  | keydown key rnd =>
    show (keydown key rnd w).cubes.all drawReady = true
    unfold keydown
    by_cases hk : key ∈ excludeKeys
    · simpa [hk] using h
    · simp [hk, List.all_append, h, drawReady, createCubeBindGroup]
  | keyup key => simpa [stepEvent, keyup] using h
  | frame dt =>
    show (frameStep w.keys dt w).cubes.all drawReady = true
    unfold frameStep
    simpa [List.all_map, Function.comp, drawReady, integrateRotation] using h

/-- C9: along any event run from startup, every spawned cube has its
uniform buffer and bind group set (they are assigned by
createCubeBindGroup before the push), so the draw-time guard filters out
nothing. -/
theorem spawned_cubes_draw_ready (a1 a2 a3 : ℝ) (evs : List Event)
    (n : ℕ) (c : CubeState) :
    ((runEvents evs (initWorld a1 a2 a3)).cubes.all drawReady = true) ∧
    ((runEvents evs (initWorld a1 a2 a3)).cubes.filter drawReady =
      (runEvents evs (initWorld a1 a2 a3)).cubes) ∧
    (createCubeBindGroup n c).uniformBuffer = some n ∧
    (createCubeBindGroup n c).bindGroup = some (n + 1) := by
  have hall : ∀ (l : List Event) (w : World), w.cubes.all drawReady = true →
      (runEvents l w).cubes.all drawReady = true := by
    intro l
    induction l with
    | nil => intro w hw; exact hw
    | cons e rest ih =>
      intro w hw
      exact ih _ (stepEvent_preserves_drawReady e w hw)
  have hAll := hall evs (initWorld a1 a2 a3) rfl
  refine ⟨hAll, ?_, rfl, rfl⟩
  exact List.filter_eq_self.mpr (List.all_eq_true.mp hAll)

/-- C1 counterexample: spawn a cube, then hold the toggle key "2" and run
a frame; the primary cube's order becomes "RTS" while the spawned cube's
order stays "TRS", so buildModelMatrix does not use one uniform global
order — order is a per-object attribute. -/
theorem order_toggle_not_global :
    (runEvents [Event.keydown "x" sampleRandoms, Event.keydown "2" sampleRandoms,
        Event.frame (1/100)] (initWorld 0 0 0)).modelState.order = "RTS" ∧
    ((runEvents [Event.keydown "x" sampleRandoms, Event.keydown "2" sampleRandoms,
        Event.frame (1/100)] (initWorld 0 0 0)).cubes[0]?).map CubeState.order =
      some "TRS" ∧
    ("RTS" : ModelOrder) ≠ "TRS" := by
  refine ⟨rfl, rfl, by decide⟩

/-- C1 amended: composition order is a per-object field: a frame's order
toggle rewrites only the primary cube's order (via updateModelState) and
leaves every spawned cube's order unchanged, and every spawned cube is
created with order "TRS" regardless of the global toggle. -/
theorem order_toggle_per_object (keys : List String) (dt : ℝ) (st : World)
    (i n : ℕ) (c : CubeState) (rnd : SpawnRandoms) :
    ((frameStep keys dt st).cubes[i]?).map CubeState.order =
      (st.cubes[i]?).map CubeState.order ∧
    (frameStep keys dt st).modelState.order =
      updateModelState keys st.modelState.order ∧
    (makeCube rnd).order = "TRS" ∧
    (createCubeBindGroup n c).order = c.order := by
  refine ⟨?_, rfl, rfl, rfl⟩
  simp only [frameStep, List.getElem?_map]
  cases st.cubes[i]? <;> simp [integrateRotation]
